import Mathlib

/-!
Verification development for the `ropose` node (src/src/ropose/src/ropose.cpp).

The program runs a fixed-rate loop: each iteration it looks up the latest
transform from frame "/odom" to frame "/base_link" via a tf listener; on a
tf exception it sleeps and continues; on success it builds a
geometry_msgs::Pose2D with x and y copied from the transform origin and
theta set to the quaternion rotation angle (tf::Quaternion::getAngle), and
publishes it.

Real-number semantics stand in for the C++ doubles.
-/

namespace Ropose

noncomputable section

/-- A 3-component vector, modelling `tf::Vector3` (the transform origin,
accessed via `getOrigin().x()`, `.y()`, `.z()` in the source). -/
structure Vector3 where
  x : ℝ
  y : ℝ
  z : ℝ

/-- Euclidean length of a vector, modelling `tf::Vector3::length`. -/
def Vector3.length (v : Vector3) : ℝ :=
  Real.sqrt (v.x ^ 2 + v.y ^ 2 + v.z ^ 2)

/-- A quaternion with components (x, y, z, w), modelling `tf::Quaternion`
(`m_floats[0..3]`, with w the scalar part `m_floats[3]`). -/
structure Quaternion where
  x : ℝ
  y : ℝ
  z : ℝ
  w : ℝ

/-- The rotation angle of a quaternion, modelling
`tf::Quaternion::getAngle`, whose implementation in tf's LinearMath
(Bullet) is `2 * acos(m_floats[3])`; the result lies in [0, 2π]. -/
def Quaternion.getAngle (q : Quaternion) : ℝ :=
  2 * Real.arccos q.w

/-- The quaternion with the given rotation axis and rotation angle,
modelling `tf::Quaternion::setRotation(axis, angle)`:
`s = sin(angle/2) / axis.length()` and components
`(axis.x*s, axis.y*s, axis.z*s, cos(angle/2))`. -/
def Quaternion.ofAxisAngle (axis : Vector3) (angle : ℝ) : Quaternion :=
  { x := axis.x * (Real.sin (angle / 2) / axis.length)
    y := axis.y * (Real.sin (angle / 2) / axis.length)
    z := axis.z * (Real.sin (angle / 2) / axis.length)
    w := Real.cos (angle / 2) }

/-- The quaternion built from fixed-axis roll, pitch, yaw angles, modelling
`tf::Quaternion::setRPY(roll, pitch, yaw)` component by component:
x = sin(r/2)cos(p/2)cos(y/2) - cos(r/2)sin(p/2)sin(y/2), etc. -/
def Quaternion.setRPY (roll pitch yaw : ℝ) : Quaternion :=
  { x := Real.sin (roll / 2) * Real.cos (pitch / 2) * Real.cos (yaw / 2) -
         Real.cos (roll / 2) * Real.sin (pitch / 2) * Real.sin (yaw / 2)
    y := Real.cos (roll / 2) * Real.sin (pitch / 2) * Real.cos (yaw / 2) +
         Real.sin (roll / 2) * Real.cos (pitch / 2) * Real.sin (yaw / 2)
    z := Real.cos (roll / 2) * Real.cos (pitch / 2) * Real.sin (yaw / 2) -
         Real.sin (roll / 2) * Real.sin (pitch / 2) * Real.cos (yaw / 2)
    w := Real.cos (roll / 2) * Real.cos (pitch / 2) * Real.cos (yaw / 2) +
         Real.sin (roll / 2) * Real.sin (pitch / 2) * Real.sin (yaw / 2) }

/-- Identity quaternion (no rotation): (0, 0, 0, 1). -/
def Quaternion.identity : Quaternion :=
  { x := 0, y := 0, z := 0, w := 1 }

/-- Two-argument arctangent, the usual `atan2(y, x)` convention. -/
def atan2 (y x : ℝ) : ℝ :=
  if 0 < x then Real.arctan (y / x)
  else if x < 0 ∧ 0 ≤ y then Real.arctan (y / x) + Real.pi
  else if x < 0 ∧ y < 0 then Real.arctan (y / x) - Real.pi
  else if x = 0 ∧ 0 < y then Real.pi / 2
  else if x = 0 ∧ y < 0 then -(Real.pi / 2)
  else 0

/-- The standard yaw (rotation about Z in a ZYX Euler decomposition)
extracted from a quaternion: `atan2(2(w z + x y), 1 - 2(y² + z²))`. This is
the "true yaw" the spec contrasts the published heading with; the source
never computes it. -/
def trueYaw (q : Quaternion) : ℝ :=
  atan2 (2 * (q.w * q.z + q.x * q.y)) (1 - 2 * (q.y ^ 2 + q.z ^ 2))

/-- A stamped rigid transform as used by the source: origin (translation)
and rotation, accessed via `getOrigin()` and `getRotation()`. The frame ids
and timestamp of `tf::StampedTransform` never influence the published pose,
so they are carried separately in `LookupQuery`. -/
structure StampedTransform where
  origin : Vector3
  rotation : Quaternion

/-- The output record, modelling `geometry_msgs::Pose2D`. -/
structure Pose2D where
  x : ℝ
  y : ℝ
  theta : ℝ

/-- The Projector: lines 32-36 of ropose.cpp.
`pose.x = tf.getOrigin().x(); pose.y = tf.getOrigin().y();
pose.theta = tf.getRotation().getAngle();` -/
def projectPose (t : StampedTransform) : Pose2D :=
  { x := t.origin.x
    y := t.origin.y
    theta := t.rotation.getAngle }

/-- Outcome of one `lookupTransform` call on one loop iteration: either a
transform, or the `tf::TransformException` caught at lines 26-30. -/
inductive LookupResult where
  | success (t : StampedTransform)
  | transformUnavailable

/-- The loop body of lines 17-42, run over a given sequence of lookup
outcomes, collecting the published poses in order. A caught exception
sleeps and `continue`s (nothing published, no other state to change); a
successful lookup publishes the projected pose and proceeds. -/
def runLoop : List LookupResult → List Pose2D
  | [] => []
  | LookupResult.transformUnavailable :: rest => runLoop rest
  | LookupResult.success t :: rest => projectPose t :: runLoop rest

/-- The arguments of the lookup call: target frame, source frame, and the
requested timestamp. -/
structure LookupQuery where
  targetFrame : String
  sourceFrame : String
  time : Nat

/-- In the tf API, requesting time 0 (`ros::Time(0)`) asks for the most
recent available transform rather than data at any fixed instant. -/
def rosTimeLatest : Nat := 0

/-- The exact lookup issued at line 23:
`tf_listener.lookupTransform("/odom", "/base_link", ros::Time(0), tf)`. -/
def roposeLookupQuery : LookupQuery :=
  { targetFrame := "/odom", sourceFrame := "/base_link", time := 0 }

/-- A quaternion is a unit quaternion when its four components have unit
Euclidean norm. -/
def isUnit (q : Quaternion) : Prop :=
  q.x ^ 2 + q.y ^ 2 + q.z ^ 2 + q.w ^ 2 = 1

end

/-- Claim C1: for every translation and every axis-angle orientation with
angle θ in the library's principal range [0, 2π], the published heading is
θ itself — the magnitude of the axis-angle representation of the full 3-D
orientation, whatever the rotation axis — not a yaw/Z-only decomposition. -/
theorem heading_is_total_rotation_angle (trans axis : Vector3) (θ : ℝ)
    (h0 : 0 ≤ θ) (h1 : θ ≤ 2 * Real.pi) :
    (projectPose { origin := trans, rotation := Quaternion.ofAxisAngle axis θ }).theta = θ := by
  simp only [projectPose, Quaternion.getAngle, Quaternion.ofAxisAngle]
  rw [Real.arccos_cos (by linarith) (by linarith)]
  ring

/-- Witness for C1 at axis (1,0,0) (the X axis, not Z) and θ = π/2. -/
theorem heading_is_total_rotation_angle_witness :
    (0 ≤ Real.pi / 2 ∧ Real.pi / 2 ≤ 2 * Real.pi) ∧
      (projectPose (StampedTransform.mk (Vector3.mk 0 0 0)
        (Quaternion.ofAxisAngle (Vector3.mk 1 0 0) (Real.pi / 2)))).theta =
        Real.pi / 2 :=
  ⟨⟨by positivity, by linarith [Real.pi_pos]⟩,
   heading_is_total_rotation_angle _ _ _ (by positivity) (by linarith [Real.pi_pos])⟩

/-- Claim C2: an iteration on which the lookup fails publishes nothing,
raises nothing, and the loop continues into the next iteration with its
state unchanged: the run over `transformUnavailable :: rest` is exactly the
run over `rest`. -/
theorem skip_on_unavailable (rest : List LookupResult) :
    runLoop (LookupResult.transformUnavailable :: rest) = runLoop rest := rfl

/-- Claim C3: over the outcome sequence [fail, fail, success T], exactly
one pose is published, and it is the projection of T. -/
theorem resume_after_recovery (T : StampedTransform) :
    runLoop [LookupResult.transformUnavailable, LookupResult.transformUnavailable,
      LookupResult.success T] = [projectPose T] := rfl

/-- Claim C4: the published x and y are verbatim copies of translation.x
and translation.y, and the translation's z component has no effect on the
output pose. -/
theorem planar_copy_and_z_discarded :
    (∀ t : StampedTransform, (projectPose t).x = t.origin.x ∧ (projectPose t).y = t.origin.y) ∧
      ∀ (x y z z' : ℝ) (q : Quaternion),
        projectPose ⟨⟨x, y, z⟩, q⟩ = projectPose ⟨⟨x, y, z'⟩, q⟩ :=
  ⟨fun _ => ⟨rfl, rfl⟩, fun _ _ _ _ _ => rfl⟩

/-- Claim C5: for a rotation with zero roll, zero pitch and yaw θ in the
library's principal range [0, 2π], the published heading equals θ. -/
theorem pure_yaw_heading (trans : Vector3) (θ : ℝ) (h0 : 0 ≤ θ) (h1 : θ ≤ 2 * Real.pi) :
    (projectPose { origin := trans, rotation := Quaternion.setRPY 0 0 θ }).theta = θ := by
  simp only [projectPose, Quaternion.getAngle, Quaternion.setRPY, zero_div, Real.sin_zero,
    Real.cos_zero, one_mul, mul_one, zero_mul, mul_zero, add_zero]
  rw [Real.arccos_cos (by linarith) (by linarith)]
  ring

/-- Witness for C5 at yaw θ = π. -/
theorem pure_yaw_heading_witness :
    (0 ≤ Real.pi ∧ Real.pi ≤ 2 * Real.pi) ∧
      (projectPose (StampedTransform.mk (Vector3.mk 0 0 0)
        (Quaternion.setRPY 0 0 Real.pi))).theta = Real.pi :=
  ⟨⟨Real.pi_pos.le, by linarith [Real.pi_pos]⟩,
   pure_yaw_heading _ _ Real.pi_pos.le (by linarith [Real.pi_pos])⟩

/-- Claim C6: a 90° roll with zero yaw gives heading π/2, the total
rotation angle, while the true yaw of that orientation is 0 — the heading
is not the yaw. -/
theorem tilt_contamination :
    (projectPose (StampedTransform.mk (Vector3.mk 0 0 0)
        (Quaternion.setRPY (Real.pi / 2) 0 0))).theta = Real.pi / 2 ∧
      trueYaw (Quaternion.setRPY (Real.pi / 2) 0 0) = 0 ∧
      (projectPose (StampedTransform.mk (Vector3.mk 0 0 0)
        (Quaternion.setRPY (Real.pi / 2) 0 0))).theta ≠
        trueYaw (Quaternion.setRPY (Real.pi / 2) 0 0) := by
  have hhead : (projectPose (StampedTransform.mk (Vector3.mk 0 0 0)
      (Quaternion.setRPY (Real.pi / 2) 0 0))).theta = Real.pi / 2 := by
    simp only [projectPose, Quaternion.getAngle, Quaternion.setRPY, zero_div, Real.sin_zero,
      Real.cos_zero, one_mul, mul_one, zero_mul, mul_zero, add_zero, sub_zero]
    rw [show Real.pi / 2 / 2 = Real.pi / 4 by ring,
      Real.arccos_cos (by positivity) (by linarith [Real.pi_pos])]
    ring
  have hyaw : trueYaw (Quaternion.setRPY (Real.pi / 2) 0 0) = 0 := by
    simp only [trueYaw, Quaternion.setRPY, zero_div, Real.sin_zero, Real.cos_zero, one_mul,
      mul_one, zero_mul, mul_zero, add_zero, sub_zero]
    norm_num [atan2, Real.arctan_zero]
  exact ⟨hhead, hyaw, by rw [hhead, hyaw]; positivity⟩

/-- Claim C7: the Projector is a total function of the transform (it is a
plain function in this model, with no failure path), and on any transform
whose rotation is a unit quaternion the heading it returns is a real number
bounded in [0, 2π] — in particular finite. -/
theorem projector_total_heading_bounded (t : StampedTransform) (h : isUnit t.rotation) :
    0 ≤ (projectPose t).theta ∧ (projectPose t).theta ≤ 2 * Real.pi := by
  have h1 := Real.arccos_nonneg t.rotation.w
  have h2 := Real.arccos_le_pi t.rotation.w
  constructor <;> simp only [projectPose, Quaternion.getAngle] <;> linarith

/-- Witness for C7 at the identity rotation. -/
theorem projector_total_heading_bounded_witness :
    isUnit (StampedTransform.mk (Vector3.mk 0 0 0) Quaternion.identity).rotation ∧
      (0 ≤ (projectPose (StampedTransform.mk (Vector3.mk 0 0 0) Quaternion.identity)).theta ∧
        (projectPose (StampedTransform.mk (Vector3.mk 0 0 0) Quaternion.identity)).theta ≤
          2 * Real.pi) :=
  ⟨by norm_num [isUnit, Quaternion.identity],
   projector_total_heading_bounded _ (by norm_num [isUnit, Quaternion.identity])⟩

/-- Claim C8: translation (1, 2, 0.5) with the identity rotation publishes
exactly x = 1, y = 2, heading = 0. -/
theorem concrete_scenario :
    (projectPose { origin := Vector3.mk 1 2 0.5, rotation := Quaternion.identity }).x = 1 ∧
      (projectPose { origin := Vector3.mk 1 2 0.5, rotation := Quaternion.identity }).y = 2 ∧
      (projectPose { origin := Vector3.mk 1 2 0.5, rotation := Quaternion.identity }).theta = 0 := by
  refine ⟨rfl, rfl, ?_⟩
  simp [projectPose, Quaternion.getAngle, Quaternion.identity, Real.arccos_one]

/-- Claim C9 counterexample: the lookup at line 23 does not use the frame
identifiers "odom" and "base_link"; the literal identifiers carry a leading
slash. -/
theorem lookup_frames_counterexample :
    ¬(roposeLookupQuery.targetFrame = "odom" ∧ roposeLookupQuery.sourceFrame = "base_link") := by
  decide

/-- Claim C9 as amended: on every iteration the lookup queries reference
frame "/odom" and body frame "/base_link" (tf's slash-qualified form of the
conventional names), at time 0, the tf marker for the most recent available
data rather than any fixed timestamp. -/
theorem lookup_frames_amended :
    roposeLookupQuery.targetFrame = "/odom" ∧ roposeLookupQuery.sourceFrame = "/base_link" ∧
      roposeLookupQuery.time = rosTimeLatest :=
  ⟨rfl, rfl, rfl⟩

/-- Claim C10: for every unit quaternion the published heading lies in
[0, 2π] (the getAngle convention) and is never a negative signed angle. -/
theorem heading_never_negative (q : Quaternion) (h : isUnit q) :
    (0 ≤ q.getAngle ∧ q.getAngle ≤ 2 * Real.pi) ∧ ¬(q.getAngle < 0) := by
  have h1 := Real.arccos_nonneg q.w
  have h2 := Real.arccos_le_pi q.w
  refine ⟨⟨?_, ?_⟩, fun hc => ?_⟩
  · simp only [Quaternion.getAngle]; linarith
  · simp only [Quaternion.getAngle]; linarith
  · simp only [Quaternion.getAngle] at hc; linarith

/-- Witness for C10 at the unit quaternion (0, 0, 1, 0), a 180° yaw. -/
theorem heading_never_negative_witness :
    isUnit (Quaternion.mk 0 0 1 0) ∧
      ((0 ≤ (Quaternion.mk 0 0 1 0).getAngle ∧
          (Quaternion.mk 0 0 1 0).getAngle ≤ 2 * Real.pi) ∧
        ¬((Quaternion.mk 0 0 1 0).getAngle < 0)) :=
  ⟨by norm_num [isUnit], heading_never_negative _ (by norm_num [isUnit])⟩

end Ropose
